import Mathlib

/-!
Verification development for the backup-files repository.

The definitions below are a shallow embedding of the selection engine in
`src/main.py`, `src/stats.py`, `src/patterns.py` and `src/py_util.py`:

* paths are lists of name components, relative to the filesystem root;
* the live filesystem is a finite tree (`FsEntry`) plus the single number
  that `shutil.disk_usage` reports as used space on the disk;
* Python exceptions are modelled with `Except PyError`;
* Python sets are modelled as duplicate-free lists built with `setInsert`
  (membership is what the source ever observes);
* the recursive `os.walk` traversal is modelled as a fuel-indexed worklist
  in depth-first preorder, which is exactly the order in which the
  top-down `os.walk` loop of `ListFilesV2._walk` visits directories.
  The fuel is an embedding device only: each step of the worklist consumes
  one unit, and every theorem either quantifies over the fuel or supplies
  enough of it for the concrete tree at hand.
-/

namespace BackupFiles

/-- A filesystem path, as the list of its name components below the root. -/
abbrev FPath := List String

/-- One filesystem object: a regular file carrying its logical size
(`stat().st_size`) and its on-disk allocated size, or a directory with its
named entries in directory-listing order. -/
inductive FsEntry where
  | file (ls : Int) (du : Int)
  | dir (entries : List (String × FsEntry))
deriving Repr

/-- The live filesystem: the tree under the root, plus the used-space
figure of the whole disk, which is what `shutil.disk_usage(p).used`
returns for every path `p` on that disk. -/
structure FsModel where
  root : FsEntry
  diskUsed : Int
deriving Repr

/-- Find a named entry in a directory listing. -/
def findEntry (entries : List (String × FsEntry)) (n : String) : Option FsEntry :=
  match entries with
  | [] => none
  | (m, e) :: rest => if m = n then some e else findEntry rest n

/-- Walk the tree along a path. -/
def lookupEntry : FPath → FsEntry → Option FsEntry
  | [], e => some e
  | n :: rest, .dir entries =>
    match findEntry entries n with
    | some e => lookupEntry rest e
    | none => none
  | _ :: _, .file _ _ => none

def FsModel.lookup (fs : FsModel) (p : FPath) : Option FsEntry :=
  lookupEntry p fs.root

/-- FsType from main.py: tag of a live filesystem probe. `other` also
covers a missing path, because `is_file` and `is_dir` are both false
there. -/
inductive FsType where
  | file
  | dir
  | other
deriving DecidableEq, Repr

/-- FsType.from_path: probe the filesystem. -/
def FsType.from_path (fs : FsModel) (p : FPath) : FsType :=
  match fs.lookup p with
  | some (.file _ _) => .file
  | some (.dir _) => .dir
  | none => .other

/-- FsType.matches_path: equality against a fresh probe. -/
def FsType.matches_path (t : FsType) (fs : FsModel) (p : FPath) : Bool :=
  t = FsType.from_path fs p

def isFile (fs : FsModel) (p : FPath) : Bool :=
  FsType.from_path fs p = .file

def isDir (fs : FsModel) (p : FPath) : Bool :=
  FsType.from_path fs p = .dir

/-- Python `Path.name`: the last component, the empty string for the root. -/
def pathName (p : FPath) : String :=
  p.getLastD ("")

/-- Modelled Python exceptions. `outOfFuel` corresponds to no source
behaviour at all: it only marks that the bounded worklist ran out of fuel,
and never occurs once the fuel exceeds the number of worklist steps. -/
inductive PyError where
  | typeError
  | assertionError
  | osError
  | declOrderError
  | outOfFuel
deriving DecidableEq, Repr

/-- ExcludeDirMode from main.py: NO = 0, CONTENTS = 1, ALL = 2. -/
inductive ExcludeDirMode where
  | no
  | contents
  | all
deriving DecidableEq, Repr

def ExcludeDirMode.toNat : ExcludeDirMode → Nat
  | .no => 0
  | .contents => 1
  | .all => 2

/-- Python `max(a, b)`: `a` when `a >= b`, else `b`, under the IntEnum
ordering. -/
def ExcludeDirMode.pymax (a b : ExcludeDirMode) : ExcludeDirMode :=
  if b.toNat ≤ a.toNat then a else b

/-- ExcludeDirMode.exclude_contents: `self >= CONTENTS`. -/
def ExcludeDirMode.exclude_contents (m : ExcludeDirMode) : Bool :=
  ExcludeDirMode.toNat .contents ≤ m.toNat

/-- ExcludeDirMode.exclude_self: `self >= ALL`. -/
def ExcludeDirMode.exclude_self (m : ExcludeDirMode) : Bool :=
  ExcludeDirMode.toNat .all ≤ m.toNat

/-- The two concrete exclude declarations of main.py.

* `fileExt` is FileExtExclude, holding the extension set; it subclasses
  IFileExclude only.
* `nameExcl` is NameExclude, holding the name set, the optional FsType
  filter, and the keep_self flag; it subclasses both IFileExclude and
  IDirExclude.
-/
inductive Exclude where
  | fileExt (extensions : List String)
  | nameExcl (names : List String) (fs_type : Option FsType) (keep_self : Bool)
deriving DecidableEq, Repr

/-- isinstance(e, IFileExclude): both concrete classes are file
excludes. -/
def Exclude.isFileExclude : Exclude → Bool
  | .fileExt _ => true
  | .nameExcl _ _ _ => true

/-- isinstance(e, IDirExclude): only NameExclude is a dir exclude. -/
def Exclude.isDirExclude : Exclude → Bool
  | .fileExt _ => false
  | .nameExcl _ _ _ => true

/-- The characters after the last dot of a character list, or `none` when
no dot occurs. The rightmost dot wins because the tail is consulted
first. -/
def afterLastDot : List Char → Option (List Char)
  | [] => none
  | c :: rest =>
    match afterLastDot rest with
    | some t => some t
    | none => if c = ('.' : Char) then some rest else none

/-- Python `name.rpartition(".")[2]`: the text after the last dot, and the
whole string when there is no dot at all (rpartition with the separator
missing puts the whole string in the third slot). -/
def extOf (name : String) : String :=
  match afterLastDot name.toList with
  | some t => ⟨t⟩
  | none => name

/-- Python `e.removeprefix(".")`: drop one leading dot when present. -/
def stripDot (e : String) : String :=
  match e.toList with
  | c :: rest => if c = ('.' : Char) then ⟨rest⟩ else e
  | [] => e

/-- FileExtExclude.__init__ stores `{e.removeprefix(".") for e in ext}`:
each stored extension has a single leading dot stripped. -/
def fileExtExclude (ext : List String) : Exclude :=
  .fileExt (ext.map stripDot)

/-- should_exclude of the two concrete classes. Both ignore the fs_type
argument that the walker passes; NameExclude instead probes the live
filesystem through `matches_path` when its own filter is set. -/
def Exclude.should_exclude (fs : FsModel) (e : Exclude) (path : FPath) : Bool :=
  match e with
  | .fileExt extensions => extOf (pathName path) ∈ extensions
  | .nameExcl names fs_type _keep =>
    match fs_type with
    | some t => if !(t.matches_path fs path) then false else pathName path ∈ names
    | none => pathName path ∈ names

/-- IDirExclude.exclude_mode_for, as written in main.py lines 66-69: when
`should_exclude` is false it returns `ExcludeDirMode.NO`; when it is true
the function body ends without a return, so Python yields `None`, which
this embedding renders as `none`. No subclass overrides the method. -/
def Exclude.exclude_mode_for (fs : FsModel) (e : Exclude) (path : FPath) :
    Option ExcludeDirMode :=
  if !(e.should_exclude fs path) then some .no else none

/-- ListFilesV2.should_exclude_file: any applicable IFileExclude vetoes
the file. -/
def should_exclude_file (fs : FsModel) (excludes : List Exclude) (file : FPath) : Bool :=
  excludes.any (fun e => e.isFileExclude && e.should_exclude fs file)

/-- Loop body of ListFilesV2.get_exclude_mode. `max(result, None)` raises
TypeError in Python, hence the `.error .typeError` arm; the early return
at ALL is kept. -/
def get_exclude_mode_loop (fs : FsModel) (path : FPath) :
    List Exclude → ExcludeDirMode → Except PyError ExcludeDirMode
  | [], result => .ok result
  | e :: rest, result =>
    if e.isDirExclude then
      match e.exclude_mode_for fs path with
      | none => .error .typeError
      | some m =>
        let result := result.pymax m
        if result = .all then .ok result
        else get_exclude_mode_loop fs path rest result
    else get_exclude_mode_loop fs path rest result

/-- ListFilesV2.get_exclude_mode. -/
def get_exclude_mode (fs : FsModel) (excludes : List Exclude) (path : FPath) :
    Except PyError ExcludeDirMode :=
  get_exclude_mode_loop fs path excludes .no

/-- Stats from stats.py (the fields that the V2 walker mutates). The size
cache is an association list keyed by path. -/
structure Stats where
  n_files : Int
  n_dirs : Int
  bytes_to_copy_ls : Int
  bytes_to_copy_du : Int
  size_cache : List (FPath × (Int × Int))
deriving DecidableEq, Repr

def statsInit : Stats :=
  { n_files := 0, n_dirs := 0, bytes_to_copy_ls := 0, bytes_to_copy_du := 0,
    size_cache := [] }

def cacheFind (cache : List (FPath × (Int × Int))) (file : FPath) :
    Option (Int × Int) :=
  match cache with
  | [] => none
  | (p, sz) :: rest => if p = file then some sz else cacheFind rest file

/-- Stats._calc_size: `(file.stat().st_size, shutil.disk_usage(file).used)`.
The second component is the used space of the whole disk, not a per-file
figure. `stat()` raises OSError when the path does not name an existing
file; the walker always asserts `is_file` first, so the error arm is never
reached from the walk. -/
def calc_size (fs : FsModel) (file : FPath) : Except PyError (Int × Int) :=
  match fs.lookup file with
  | some (.file ls _du) => .ok (ls, fs.diskUsed)
  | _ => .error .osError

/-- Stats.lookup_sizes: serve from the cache, else compute and cache (the
warning on a cache miss is not observable here). -/
def lookup_sizes (fs : FsModel) (s : Stats) (file : FPath) :
    Except PyError ((Int × Int) × Stats) :=
  match cacheFind s.size_cache file with
  | some sz => .ok (sz, s)
  | none =>
    match calc_size fs file with
    | .error e => .error e
    | .ok sz => .ok (sz, { s with size_cache := s.size_cache ++ [(file, sz)] })

/-- Stats._add_to_totals. -/
def add_to_totals (s : Stats) (sizes : Int × Int) : Stats :=
  { s with bytes_to_copy_ls := s.bytes_to_copy_ls + sizes.1,
           bytes_to_copy_du := s.bytes_to_copy_du + sizes.2 }

/-- Stats.add_file: bump the count, then add the looked-up sizes. -/
def statsAddFile (fs : FsModel) (s : Stats) (file : FPath) : Except PyError Stats :=
  let s := { s with n_files := s.n_files + 1 }
  match lookup_sizes fs s file with
  | .error e => .error e
  | .ok (sizes, s) => .ok (add_to_totals s sizes)

/-- Stats.add_dir. -/
def statsAddDir (s : Stats) : Stats :=
  { s with n_dirs := s.n_dirs + 1 }

/-- Python set insertion on the list model: membership-preserving, no
duplicates ever created. -/
def setInsert (s : List FPath) (p : FPath) : List FPath :=
  if p ∈ s then s else s ++ [p]

/-- The mutable state of one ListFilesV2 instance during a walk, together
with the `visited_dirs` local of `_walk`. `trace` is a ghost field used
only by specifications: it records, in order, each directory for which the
per-directory body of the walk loop ran (that is, each directory that
passed the visited check and was newly visited). -/
structure WalkState where
  visited : List FPath
  trace : List FPath
  dirs : List FPath
  files : List FPath
  stats : Stats
deriving DecidableEq, Repr

def walkInit : WalkState :=
  { visited := [], trace := [], dirs := [], files := [], stats := statsInit }

/-- ListFilesV2.add_file: no-op when the file is already in the result
set; otherwise feed Stats and add it. -/
def add_file (fs : FsModel) (st : WalkState) (file : FPath) :
    Except PyError WalkState :=
  if file ∈ st.files then .ok st
  else
    match statsAddFile fs st.stats file with
    | .error e => .error e
    | .ok stats => .ok { st with stats := stats, files := setInsert st.files file }

/-- ListFilesV2.add_dir_only, exactly as written in main.py lines 240-245:
the guard is `if path not in self.dirs: return`, so the function returns
without adding whenever the path is new, and since `self.dirs` starts
empty and is only ever written here, the else branch is unreachable. -/
def add_dir_only (st : WalkState) (path : FPath) : WalkState :=
  if path ∉ st.dirs then st
  else { st with stats := statsAddDir st.stats, dirs := setInsert st.dirs path }

/-- The file names of a directory listing, in order, as `os.walk` reports
them. -/
def fileNamesOf (entries : List (String × FsEntry)) : List String :=
  entries.filterMap (fun q => match q.2 with | .file _ _ => some q.1 | .dir _ => none)

/-- The child directory paths of a directory, in listing order. -/
def childDirPaths (path : FPath) (entries : List (String × FsEntry)) : List FPath :=
  entries.filterMap
    (fun q => match q.2 with | .dir _ => some (path ++ [q.1]) | .file _ _ => none)

/-- The file loop of `_walk`: `assert filepath.is_file()`, then add the
file unless a file exclude vetoes it. -/
def walkAddFiles (fs : FsModel) (excludes : List Exclude) :
    WalkState → FPath → List String → Except PyError WalkState
  | st, _, [] => .ok st
  | st, dirpath, n :: rest =>
    let filepath := dirpath ++ [n]
    if isFile fs filepath then
      if !(should_exclude_file fs excludes filepath) then
        match add_file fs st filepath with
        | .error e => .error e
        | .ok st => walkAddFiles fs excludes st dirpath rest
      else walkAddFiles fs excludes st dirpath rest
    else .error .assertionError

/-- `visited_dirs.add(dirpath)`, with the ghost trace recording that the
per-directory body runs for this path. -/
def markVisited (st : WalkState) (path : FPath) : WalkState :=
  { st with visited := setInsert st.visited path, trace := st.trace ++ [path] }

/-- `if not excl_mode.exclude_self(): self.add_dir_only(dirpath)`. -/
def processDirSelf (st : WalkState) (path : FPath) (m : ExcludeDirMode) :
    WalkState :=
  if !m.exclude_self then add_dir_only st path else st

/-- The body of the `_walk` loop for one newly visited directory: record
it as visited (and in the ghost trace), aggregate the exclude mode, add
the directory itself unless the mode excludes it, and unless the mode
excludes the contents add the files and hand back the child directories
for the traversal to descend into. -/
def processDir (fs : FsModel) (excludes : List Exclude) (st : WalkState)
    (path : FPath) (entries : List (String × FsEntry)) :
    Except PyError (WalkState × List FPath) :=
  match get_exclude_mode fs excludes path with
  | .error e => .error e
  | .ok m =>
    let st2 := processDirSelf (markVisited st path) path m
    if m.exclude_contents then .ok (st2, [])
    else
      match walkAddFiles fs excludes st2 path (fileNamesOf entries) with
      | .error e => .error e
      | .ok st3 => .ok (st3, childDirPaths path entries)

/-- The top-down `os.walk` loop of `_walk`, as a depth-first preorder
worklist. A worklist entry that is already visited is skipped with its
subtree (`dirs.clear(); continue`); a fresh directory is processed and its
children are pushed in front. Non-directory entries never reach the
worklist, and `os.walk` of such a path would yield nothing, hence the
catch-all arm. -/
def walkPaths (fs : FsModel) (excludes : List Exclude) :
    Nat → WalkState → List FPath → Except PyError WalkState
  | _, st, [] => .ok st
  | 0, _, _ :: _ => .error .outOfFuel
  | fuel + 1, st, path :: rest =>
    match fs.lookup path with
    | some (.dir entries) =>
      if path ∈ st.visited then walkPaths fs excludes fuel st rest
      else
        match processDir fs excludes st path entries with
        | .error e => .error e
        | .ok (st', children) => walkPaths fs excludes fuel st' (children ++ rest)
    | _ => walkPaths fs excludes fuel st rest

/-- The root loop of `_walk`: `assert root.is_dir()` and then walk the
tree under it, sharing the visited set across roots. -/
def walkRootsLoop (fs : FsModel) (excludes : List Exclude) (fuel : Nat) :
    WalkState → List FPath → Except PyError WalkState
  | st, [] => .ok st
  | st, r :: rest =>
    if isDir fs r then
      match walkPaths fs excludes fuel st [r] with
      | .error e => .error e
      | .ok st => walkRootsLoop fs excludes fuel st rest
    else .error .assertionError

/-- ListFilesV2._walk: a fresh `visited_dirs` set for this invocation
(the ghost trace is reset with it), then the root loop. -/
def walkUnder (fs : FsModel) (excludes : List Exclude) (fuel : Nat)
    (st : WalkState) (roots : List FPath) : Except PyError WalkState :=
  walkRootsLoop fs excludes fuel { st with visited := [], trace := [] } roots

/-- Root expansion of ListFilesV2.walk: a root path that is a file is
added to the result directly, with no exclude test; a directory root is
collected; anything else hits the assertion. -/
def expandRoots (fs : FsModel) :
    WalkState → List FPath → List FPath → Except PyError (WalkState × List FPath)
  | st, [], roots => .ok (st, roots)
  | st, p :: rest, roots =>
    if isFile fs p then
      match add_file fs st p with
      | .error e => .error e
      | .ok st => expandRoots fs st rest roots
    else if isDir fs p then expandRoots fs st rest (setInsert roots p)
    else .error .assertionError

/-- ListFilesV2.walk: expand the include root paths, then `_walk` the
directory roots against the excludes. -/
def walk (fs : FsModel) (fuel : Nat) (st : WalkState)
    (includePaths : List FPath) (excludes : List Exclude) :
    Except PyError WalkState :=
  match expandRoots fs st includePaths [] with
  | .error e => .error e
  | .ok (st, roots) => walkUnder fs excludes fuel st roots

/-! ## The pattern tree of patterns.py -/

/-- FsTypeFlag from patterns.py: a two-bit flag over FILE and DIR. -/
structure FsTypeFlag where
  file : Bool
  dir : Bool
deriving DecidableEq, Repr

/-- Flag intersection, the `&` of the Flag enum. -/
def FsTypeFlag.inter (a b : FsTypeFlag) : FsTypeFlag :=
  ⟨a.file && b.file, a.dir && b.dir⟩

/-- Python truthiness of a Flag value: nonzero. -/
def FsTypeFlag.truthy (a : FsTypeFlag) : Bool :=
  a.file || a.dir

def fileFlag : FsTypeFlag := ⟨true, false⟩
def dirFlag : FsTypeFlag := ⟨false, true⟩
def bothFlag : FsTypeFlag := ⟨true, true⟩

/-- A pattern node of patterns.py, after construction: its resolved
fs_type flag, its `matches_self` test on the current path component (the
only concrete matcher in the source, SingleNamePattern, compares
`current_component(path)` with a stored name), its `matches_null` answer,
and its child patterns. -/
inductive Pattern where
  | node (fs_type : FsTypeFlag) (selfPred : String → Bool) (nullOk : Bool)
      (children : List Pattern)

/-- The matches_null answer of a node. -/
def Pattern.matches_null : Pattern → Bool
  | .node _ _ nl _ => nl

/-- AbstractPattern.matches_subpath on the component list of the path,
with `actual` standing for `FsTypeFlag.from_path(full_path)`, the probed
flag of the full path (the full path is fixed along the recursion, so its
probe is a single parameter). The final component keeps the double type
check of the source: `_is_valid_for_current_type` and then
`_subpatterns_match_final` via `has_allowed_fs_type` both intersect the
node flag with the probed flag. `get_subpath` drops the first component,
and `is_final_component` is a one-component path. An empty component list
never arises from `match` (it asserts the path is absolute, and absolute
paths have at least their anchor as a part). -/
def matches_subpath : List String → Pattern → FsTypeFlag → Bool
  | [], _, _ => false
  | [c], .node ft sp _ ch, actual =>
    (ft.inter actual).truthy && sp c &&
      ((ft.inter actual).truthy &&
        (ch.isEmpty || ch.any (fun sub => sub.matches_null)))
  | c :: c2 :: rest, .node ft sp _ ch, actual =>
    (ft.inter dirFlag).truthy && sp c &&
      (ch.isEmpty || ch.any (fun sub => matches_subpath (c2 :: rest) sub actual))

/-- The property the specification states for `match`, written as the
chain it describes: a chain of pattern nodes from the root node downward,
one per consumed path segment, where each segment passes that level
(the fs-type constraint and `matches_self`), and which ends either at the
final path segment, where the leaf-level node must have no children or a
child that matches the terminal null state, or earlier at a childless node,
below which the remaining segments are unconstrained (the open-ended
match of a leaf pattern node reached before the path ends). -/
inductive SpecMatch (actual : FsTypeFlag) : List String → Pattern → Prop where
  | last (c : String) (ft : FsTypeFlag) (sp : String → Bool) (nl : Bool)
      (ch : List Pattern) :
      (ft.inter actual).truthy = true → sp c = true →
      (ch = [] ∨ ∃ sub ∈ ch, sub.matches_null = true) →
      SpecMatch actual [c] (.node ft sp nl ch)
  | openEnd (c c2 : String) (rest : List String) (ft : FsTypeFlag)
      (sp : String → Bool) (nl : Bool) :
      (ft.inter dirFlag).truthy = true → sp c = true →
      SpecMatch actual (c :: c2 :: rest) (.node ft sp nl [])
  | deeper (c c2 : String) (rest : List String) (ft : FsTypeFlag)
      (sp : String → Bool) (nl : Bool) (ch : List Pattern) (sub : Pattern) :
      (ft.inter dirFlag).truthy = true → sp c = true →
      sub ∈ ch → SpecMatch actual (c2 :: rest) sub →
      SpecMatch actual (c :: c2 :: rest) (.node ft sp nl ch)

/-! ## Paths as pathlib sees them, and RootPattern -/

/-- A pure path in the POSIX flavour of pathlib: an optional root anchor
plus the components after it. `parts` lists the anchor, when present, as
the first part; `is_absolute` is exactly the presence of the anchor. -/
structure PyPath where
  hasRoot : Bool
  comps : List String
deriving DecidableEq, Repr

def PyPath.parts (p : PyPath) : List String :=
  (if p.hasRoot then [("/")] else []) ++ p.comps

def PyPath.is_absolute (p : PyPath) : Bool :=
  p.hasRoot

/-- The data a constructed RootPattern would hold. -/
structure RootPatternData where
  root : PyPath
  children : List Pattern

/-- RootPattern.__init__ from patterns.py lines 217-224: assert the path
is a directory (a live probe, passed in here as an arbitrary oracle so
the result covers every filesystem), assert it is absolute, assert it has
zero parts, and only then build the value. -/
def rootPatternInit (is_dir_probe : PyPath → Bool) (path : PyPath)
    (children : List Pattern) : Except PyError RootPatternData :=
  if !(is_dir_probe path) then .error .assertionError
  else if !path.is_absolute then .error .assertionError
  else if path.parts.length = 0 then .ok ⟨path, children⟩
  else .error .assertionError

/-! ## The declaration set -/

/-- A declaration: an include contributing root paths, or an exclude. -/
inductive Decl where
  | inc (paths : List FPath)
  | exc (e : Exclude)
deriving Repr

def Decl.isInclude : Decl → Bool
  | .inc _ => true
  | .exc _ => false

/-- Maximal runs of same-kind declarations, the block grouping of the
specification (itertools.groupby over the kind). -/
def groupRuns : List Decl → List (List Decl)
  | [] => []
  | d :: ds =>
    match groupRuns ds with
    | (d' :: g) :: gs =>
      if d.isInclude = d'.isInclude then (d :: d' :: g) :: gs
      else [d] :: (d' :: g) :: gs
    | _ => [[d]]

/-- The blocked declaration set that ListFilesV2 stores: the alternating
include and exclude blocks. -/
structure DeclSet where
  include_blocks : List (List Decl)
  exclude_blocks : List (List Decl)

/-- Split an alternating run list into the runs at even positions and the
runs at odd positions. -/
def altSplit : List (List Decl) → List (List Decl) × List (List Decl)
  | [] => ([], [])
  | g :: gs =>
    let (evens, odds) := altSplit gs
    (g :: odds, evens)

/-- Modelled from the spec: the constructor that groups an ordered
declaration list into the blocked form of ListFilesV2. The source only
declares the fields `include_blocks` and `exclude_blocks` together with
the comment that the set must start with an include block (main.py lines
227-232); no grouping or validating code exists under src, so this
definition follows the words of spec section 4.3: partition the list into
maximal same-kind runs, reject a leading exclude block as a malformed
declaration order, and otherwise store the alternating runs. -/
def mkDeclSet (ds : List Decl) : Except PyError DeclSet :=
  match groupRuns ds with
  | [] => .ok ⟨[], []⟩
  | [] :: _ => .ok ⟨[], []⟩
  | (d :: g) :: gs =>
    if d.isInclude then
      let (incs, excs) := altSplit ((d :: g) :: gs)
      .ok ⟨incs, excs⟩
    else .error .declOrderError

/-! ## Specification-side definitions and fixtures -/

/-- AbstractPattern.match: assert the path is absolute, then match the
part list of the path against the tree, with `actual` the probed flag of
the full path. -/
def matchPath (pat : Pattern) (p : PyPath) (actual : FsTypeFlag) :
    Except PyError Bool :=
  if !p.is_absolute then .error .assertionError
  else .ok (matches_subpath p.parts pat actual)

/-- The quantity the specification calls `bytes_du`: the sum, over the
selected files, of each individual file on-disk allocated size. Stated
from the words of the spec for comparison with the Stats field. -/
def duSum (fs : FsModel) (files : List FPath) : Int :=
  (files.map (fun p =>
    match fs.lookup p with
    | some (.file _ du) => du
    | _ => 0)).sum

/-- The invariant carried through the walk for the ghost trace: the
processed directories are pairwise distinct and each of them is in the
visited set. -/
def TraceInv (st : WalkState) : Prop :=
  st.trace.Nodup ∧ ∀ p ∈ st.trace, p ∈ st.visited

/-- Scenario A of the spec: `/data` with `a.txt` (10 bytes), `b.tmp`
(5 bytes) and `subdir/c.txt` (20 bytes). -/
def scenarioA_fs : FsModel :=
  ⟨.dir [("data", .dir [("a.txt", .file 10 10), ("b.tmp", .file 5 5),
    ("subdir", .dir [("c.txt", .file 20 20)])])], 1000⟩

/-- Scenario A exclude block: a file-extension exclude for `.tmp`. -/
def scenarioA_excludes : List Exclude := [fileExtExclude [(".tmp")]]

/-- Scenario B of the spec: `/data/node_modules/pkg.js` exists. -/
def scenarioB_fs : FsModel :=
  ⟨.dir [("data", .dir [("node_modules", .dir [("pkg.js", .file 1 1)])])], 10⟩

/-- Scenario B exclude block: a name exclude for `node_modules`,
restricted to directories. -/
def scenarioB_excludes : List Exclude :=
  [Exclude.nameExcl ["node_modules"] (some .dir) false]

/-- A filesystem with two plain files at the root, used to exercise
file-typed include roots. -/
def twoFiles_fs : FsModel :=
  ⟨.dir [("a.txt", .file 1 1), ("b.txt", .file 2 2)], 10⟩

/-- An exclude predicate vetoing exactly `a.txt`. -/
def twoFiles_excludes : List Exclude := [Exclude.nameExcl ["a.txt"] none false]

/-- A filesystem with one empty directory `d`. -/
def oneDir_fs : FsModel := ⟨.dir [("d", .dir [])], 0⟩

/-- A filesystem with a single 5-byte file whose allocated size is 3,
on a disk with 50 bytes in use. -/
def oneFile_fs : FsModel := ⟨.dir [("a", .file 5 3)], 50⟩

/-- A filesystem with two 1-byte files, each with 1 byte allocated, on a
disk with 100 bytes in use. -/
def twoSmall_fs : FsModel := ⟨.dir [("a", .file 1 1), ("b", .file 1 1)], 100⟩

/-- A two-level pattern: the anchor, then the name `a`. -/
def samplePattern : Pattern :=
  .node bothFlag (fun s => s == "/") false
    [.node bothFlag (fun s => s == "a") false []]

/-- The absolute path `/a`. -/
def samplePath : PyPath := ⟨true, [("a")]⟩

/-! ## Helper lemmas -/

theorem mem_setInsert (s : List FPath) (p q : FPath) :
    q ∈ setInsert s p ↔ q ∈ s ∨ q = p := by
  unfold setInsert
  split
  · constructor
    · exact Or.inl
    · rintro (hq | rfl)
      · exact hq
      · assumption
  · simp

theorem mem_setInsert_self (s : List FPath) (p : FPath) : p ∈ setInsert s p :=
  (mem_setInsert s p p).mpr (Or.inr rfl)

/-- add_file never touches the visited set or the ghost trace. -/
theorem add_file_keeps_visited (fs : FsModel) (st : WalkState) (file : FPath)
    (st' : WalkState) (h : add_file fs st file = .ok st') :
    st'.visited = st.visited ∧ st'.trace = st.trace := by
  unfold add_file at h
  split at h
  · cases h
    exact ⟨rfl, rfl⟩
  · split at h
    · cases h
    · cases h
      exact ⟨rfl, rfl⟩

/-- The file loop never touches the visited set or the ghost trace. -/
theorem walkAddFiles_keeps_visited (fs : FsModel) (excludes : List Exclude) :
    ∀ (names : List String) (st : WalkState) (dirpath : FPath) (st' : WalkState),
      walkAddFiles fs excludes st dirpath names = .ok st' →
      st'.visited = st.visited ∧ st'.trace = st.trace := by
  intro names
  induction names with
  | nil =>
    intro st dirpath st' h
    simp only [walkAddFiles] at h
    cases h
    exact ⟨rfl, rfl⟩
  | cons n rest ih =>
    intro st dirpath st' h
    simp only [walkAddFiles] at h
    split at h
    · split at h
      · split at h
        · cases h
        · rename_i st1 heq
          obtain ⟨h1, h2⟩ := add_file_keeps_visited fs st _ st1 heq
          obtain ⟨h3, h4⟩ := ih st1 dirpath st' h
          exact ⟨h3.trans h1, h4.trans h2⟩
      · exact ih st dirpath st' h
    · cases h

/-- add_dir_only never touches the visited set or the ghost trace. -/
theorem add_dir_only_keeps_visited (st : WalkState) (path : FPath) :
    (add_dir_only st path).visited = st.visited ∧
      (add_dir_only st path).trace = st.trace := by
  unfold add_dir_only
  split
  · exact ⟨rfl, rfl⟩
  · exact ⟨rfl, rfl⟩

/-- processDirSelf never touches the visited set or the ghost trace. -/
theorem processDirSelf_keeps_visited (st : WalkState) (path : FPath)
    (m : ExcludeDirMode) :
    (processDirSelf st path m).visited = st.visited ∧
      (processDirSelf st path m).trace = st.trace := by
  unfold processDirSelf
  split
  · exact add_dir_only_keeps_visited st path
  · exact ⟨rfl, rfl⟩

/-- A successful processDir extends the visited set by the processed path
and appends exactly that path to the ghost trace. -/
theorem processDir_visited_trace (fs : FsModel) (excludes : List Exclude)
    (st : WalkState) (path : FPath) (entries : List (String × FsEntry))
    (st' : WalkState) (children : List FPath)
    (h : processDir fs excludes st path entries = .ok (st', children)) :
    st'.visited = setInsert st.visited path ∧ st'.trace = st.trace ++ [path] := by
  have hmark : (markVisited st path).visited = setInsert st.visited path ∧
      (markVisited st path).trace = st.trace ++ [path] := ⟨rfl, rfl⟩
  unfold processDir at h
  split at h
  · cases h
  · rename_i m hm
    have hself := processDirSelf_keeps_visited (markVisited st path) path m
    simp only at h
    split at h
    · cases h
      exact ⟨hself.1.trans hmark.1, hself.2.trans hmark.2⟩
    · split at h
      · cases h
      · rename_i st3 heq
        cases h
        obtain ⟨h1, h2⟩ := walkAddFiles_keeps_visited fs excludes _ _ path _ heq
        exact ⟨h1.trans (hself.1.trans hmark.1), h2.trans (hself.2.trans hmark.2)⟩

/-- The worklist walk preserves the trace invariant. -/
theorem walkPaths_inv (fs : FsModel) (excludes : List Exclude) :
    ∀ (fuel : Nat) (ps : List FPath) (st st' : WalkState),
      TraceInv st → walkPaths fs excludes fuel st ps = .ok st' → TraceInv st' := by
  intro fuel
  induction fuel with
  | zero =>
    intro ps st st' hI h
    cases ps with
    | nil =>
      simp only [walkPaths] at h
      cases h
      exact hI
    | cons p rest =>
      simp only [walkPaths] at h
      simp at h
  | succ fuel ih =>
    intro ps st st' hI h
    cases ps with
    | nil =>
      simp only [walkPaths] at h
      cases h
      exact hI
    | cons path rest =>
      simp only [walkPaths] at h
      split at h
      · rename_i entries hlook
        split at h
        · exact ih rest st st' hI h
        · rename_i hvis
          split at h
          · cases h
          · rename_i st1 children heq
            obtain ⟨hv, ht⟩ :=
              processDir_visited_trace fs excludes st path entries st1 children heq
            refine ih (children ++ rest) st1 st' ⟨?_, ?_⟩ h
            · rw [ht]
              refine List.Nodup.append hI.1 (List.nodup_singleton path) ?_
              intro q hq hq'
              rw [List.mem_singleton] at hq'
              subst hq'
              exact hvis (hI.2 q hq)
            · intro q hq
              rw [ht, List.mem_append, List.mem_singleton] at hq
              rw [hv, mem_setInsert]
              rcases hq with hq | rfl
              · exact Or.inl (hI.2 q hq)
              · exact Or.inr rfl
      · exact ih rest st st' hI h

/-- The root loop preserves the trace invariant. -/
theorem walkRootsLoop_inv (fs : FsModel) (excludes : List Exclude) (fuel : Nat) :
    ∀ (roots : List FPath) (st st' : WalkState),
      TraceInv st → walkRootsLoop fs excludes fuel st roots = .ok st' →
      TraceInv st' := by
  intro roots
  induction roots with
  | nil =>
    intro st st' hI h
    simp only [walkRootsLoop] at h
    cases h
    exact hI
  | cons r rest ih =>
    intro st st' hI h
    simp only [walkRootsLoop] at h
    split at h
    · split at h
      · cases h
      · rename_i st1 heq
        exact ih st1 st' (walkPaths_inv fs excludes fuel [r] st st1 hI heq) h
    · cases h

/-- The first run of the grouping starts with the first declaration. -/
theorem groupRuns_head (d : Decl) (ds : List Decl) :
    ∃ t gs, groupRuns (d :: ds) = (d :: t) :: gs := by
  cases h : groupRuns ds with
  | nil => exact ⟨[], [], by simp [groupRuns, h]⟩
  | cons g gs =>
    cases g with
    | nil => exact ⟨[], [], by simp [groupRuns, h]⟩
    | cons d' g' =>
      by_cases hk : d.isInclude = d'.isInclude
      · exact ⟨d' :: g', gs, by simp [groupRuns, h, hk]⟩
      · exact ⟨[], (d' :: g') :: gs, by simp [groupRuns, h, hk]⟩

/-- The recursive matcher agrees with the chain characterization of the
spec, on every nonempty component list. -/
theorem matches_subpath_iff_specMatch :
    ∀ (path : List String) (pat : Pattern) (actual : FsTypeFlag), path ≠ [] →
      (matches_subpath path pat actual = true ↔ SpecMatch actual path pat) := by
  intro path
  induction path with
  | nil => intro pat actual h; exact absurd rfl h
  | cons c rest ih =>
    intro pat actual _
    cases rest with
    | nil =>
      rcases pat with ⟨ft, sp, nl, ch⟩
      simp only [matches_subpath, Bool.and_eq_true, Bool.or_eq_true,
        List.any_eq_true, List.isEmpty_iff]
      constructor
      · rintro ⟨⟨hty, hsp⟩, _, hch⟩
        refine SpecMatch.last c ft sp nl ch hty hsp ?_
        rcases hch with h | ⟨sub, hmem, hnull⟩
        · exact Or.inl h
        · exact Or.inr ⟨sub, hmem, hnull⟩
      · intro h
        cases h with
        | last _ _ _ _ _ hty hsp hch =>
          refine ⟨⟨hty, hsp⟩, hty, ?_⟩
          rcases hch with h | ⟨sub, hmem, hnull⟩
          · exact Or.inl h
          · exact Or.inr ⟨sub, hmem, hnull⟩
    | cons c2 rest2 =>
      rcases pat with ⟨ft, sp, nl, ch⟩
      simp only [matches_subpath, Bool.and_eq_true, Bool.or_eq_true,
        List.any_eq_true, List.isEmpty_iff]
      constructor
      · rintro ⟨⟨hty, hsp⟩, hch⟩
        rcases hch with rfl | ⟨sub, hmem, hsub⟩
        · exact SpecMatch.openEnd c c2 rest2 ft sp nl hty hsp
        · exact SpecMatch.deeper c c2 rest2 ft sp nl ch sub hty hsp hmem
            ((ih sub actual (by simp)).mp hsub)
      · intro h
        cases h with
        | openEnd _ _ _ _ _ _ hty hsp => exact ⟨⟨hty, hsp⟩, Or.inl rfl⟩
        | deeper _ _ _ _ _ _ _ sub hty hsp hmem hsub =>
          exact ⟨⟨hty, hsp⟩,
            Or.inr ⟨sub, hmem, (ih sub actual (by simp)).mpr hsub⟩⟩

/-! ## Claim theorems -/

/-- C6: for every pattern tree and every absolute path, `match` returns
true exactly when some root-to-leaf chain of nodes consumes the segments
with each level passing its fs-type constraint and its matches_self, and
the chain ends as the spec describes: at the final segment the leaf-level
node has no children or a child matching the terminal null state, or
earlier at a childless node below which the match is open-ended. -/
theorem c6_match_iff_spec_chain (pat : Pattern) (p : PyPath)
    (actual : FsTypeFlag) (h : p.is_absolute = true) :
    matchPath pat p actual = .ok true ↔ SpecMatch actual p.parts pat := by
  have hne : p.parts ≠ [] := by
    rcases p with ⟨hr, comps⟩
    cases hr with
    | true => simp [PyPath.parts]
    | false => cases h
  rw [matchPath, h]
  simp only [Bool.not_true, Bool.false_eq_true, if_false, Except.ok.injEq]
  exact matches_subpath_iff_specMatch p.parts pat actual hne

/-- C6 witness: the two-level pattern `/ a` against the absolute file
path `/a`, with the hypothesis discharged by evaluation. -/
theorem c6_witness :
    samplePath.is_absolute = true ∧
      (matchPath samplePattern samplePath fileFlag = .ok true ↔
        SpecMatch fileFlag samplePath.parts samplePattern) :=
  ⟨rfl, c6_match_iff_spec_chain samplePattern samplePath fileFlag rfl⟩

/-- C1: in scenario B (include root `/data`, NameExclude for
`node_modules` restricted to directories), the walk does not complete
with `/data/node_modules` excluded from both result sets, as the claim
states; it raises TypeError instead, because
`IDirExclude.exclude_mode_for` returns None in its should-exclude branch
and `get_exclude_mode` then computes `max(mode, None)`. -/
theorem c1_scenarioB_raises_typeError :
    walk scenarioB_fs 20 walkInit [["data"]] scenarioB_excludes =
        .error .typeError ∧
      Exclude.exclude_mode_for scenarioB_fs
        (Exclude.nameExcl ["node_modules"] (some .dir) false)
        ["data", "node_modules"] = none :=
  ⟨rfl, rfl⟩

/-- C2: in scenario A the walk visits and processes both `/data` and
`/data/subdir` (the ghost trace shows them, the files and `bytes_ls` come
out as the spec expects), yet the result directory set stays empty and
the directory count stays zero, because the guard of `add_dir_only` is
`if path not in self.dirs: return`, which returns for every new path; so
the claim that a newly visited directory with a mode below `ExcludeAll`
is added to the directory set fails on the code. -/
theorem c2_scenarioA_dir_set_stays_empty :
    (walk scenarioA_fs 20 walkInit [["data"]] scenarioA_excludes).map
        (fun st => st.trace) = .ok [["data"], ["data", "subdir"]] ∧
      (walk scenarioA_fs 20 walkInit [["data"]] scenarioA_excludes).map
        (fun st => st.dirs) = .ok [] ∧
      (walk scenarioA_fs 20 walkInit [["data"]] scenarioA_excludes).map
        (fun st => st.stats.n_dirs) = .ok 0 ∧
      (walk scenarioA_fs 20 walkInit [["data"]] scenarioA_excludes).map
        (fun st => st.files) =
        .ok [["data", "a.txt"], ["data", "subdir", "c.txt"]] ∧
      (walk scenarioA_fs 20 walkInit [["data"]] scenarioA_excludes).map
        (fun st => st.stats.bytes_to_copy_ls) = .ok 30 :=
  ⟨rfl, rfl, rfl, rfl, rfl⟩

/-- C3: an include root that is a regular file is added by `walk` without
any file-exclude test: with include roots `a.txt` and `b.txt` and an
exclude predicate that vetoes `a.txt` (second conjunct), the result file
set is still the whole root set, not the root set minus the vetoed file;
so the claim that a file root is added only after passing the
file-exclude test fails on the code. -/
theorem c3_file_root_skips_exclude_test :
    (walk twoFiles_fs 5 walkInit [["a.txt"], ["b.txt"]] twoFiles_excludes).map
        (fun st => st.files) = .ok [["a.txt"], ["b.txt"]] ∧
      should_exclude_file twoFiles_fs twoFiles_excludes ["a.txt"] = true :=
  ⟨rfl, rfl⟩

/-- C4: `get_exclude_mode` does not compute the maximum of the individual
modes: as soon as any applicable dir-exclude answers should-exclude, its
`exclude_mode_for` yields None (second conjunct) and the `max` call
raises TypeError, here shown for the path `/data/node_modules` under a
single matching NameExclude. -/
theorem c4_get_exclude_mode_raises_on_match :
    get_exclude_mode scenarioB_fs scenarioB_excludes ["data", "node_modules"] =
        .error .typeError ∧
      Exclude.exclude_mode_for scenarioB_fs
        (Exclude.nameExcl ["node_modules"] (some .dir) false)
        ["data", "node_modules"] = none :=
  ⟨rfl, rfl⟩

/-- C5: a declaration list whose first block is an exclude block (that
is, whose first declaration is an exclude) is rejected by the modelled
declaration-set constructor, for every such list. -/
theorem c5_leading_exclude_block_rejected (e : Exclude) (rest : List Decl) :
    mkDeclSet (Decl.exc e :: rest) = .error .declOrderError := by
  obtain ⟨t, gs, hg⟩ := groupRuns_head (Decl.exc e) rest
  simp [mkDeclSet, hg, Decl.isInclude]

/-- C5 witness: a concrete one-element declaration list starting with an
exclude. -/
theorem c5_witness :
    mkDeclSet [Decl.exc (Exclude.fileExt [])] = .error .declOrderError :=
  c5_leading_exclude_block_rejected (Exclude.fileExt []) []

/-- C7: within one `_walk` invocation, the ghost trace of directories
that passed the visited check (the directories that get added to the
results and descended into) never repeats a path, for every filesystem,
exclude list, fuel, starting state and root list, overlapping roots
included: a directory already in the visited set is skipped without
being re-added or re-descended. -/
theorem c7_walk_processes_each_dir_at_most_once (fs : FsModel)
    (excludes : List Exclude) (fuel : Nat) (st : WalkState)
    (roots : List FPath) (st' : WalkState)
    (h : walkUnder fs excludes fuel st roots = .ok st') : st'.trace.Nodup := by
  have hI : TraceInv { st with visited := [], trace := [] } :=
    ⟨List.nodup_nil, by intro p hp; cases hp⟩
  exact (walkRootsLoop_inv fs excludes fuel roots _ st' hI h).1

/-- C7 witness: a concrete one-directory walk, to which the theorem
applies with its hypothesis discharged by evaluation. -/
theorem c7_witness :
    (⟨[["d"]], [["d"]], [], [], statsInit⟩ : WalkState).trace.Nodup :=
  c7_walk_processes_each_dir_at_most_once oneDir_fs [] 3 walkInit [["d"]]
    ⟨[["d"]], [["d"]], [], [], statsInit⟩ rfl

/-- C8: the add_file of ListFilesV2 is idempotent: when a first call
succeeds with state st', a second call with the same path returns st'
unchanged (in particular the file-set size, the file count and both byte
totals are unchanged). -/
theorem c8_add_file_idempotent (fs : FsModel) (st : WalkState) (file : FPath)
    (st' : WalkState) (h : add_file fs st file = .ok st') :
    add_file fs st' file = .ok st' := by
  by_cases hmem : file ∈ st.files
  · rw [add_file, if_pos hmem] at h
    injection h with h
    subst h
    rw [add_file, if_pos hmem]
  · rw [add_file, if_neg hmem] at h
    cases heq : statsAddFile fs st.stats file with
    | error e => rw [heq] at h; cases h
    | ok stats =>
      rw [heq] at h
      injection h with h
      subst h
      rw [add_file, if_pos (mem_setInsert_self st.files file)]

/-- C8 witness: a concrete second call on the state produced by a first
call, with the hypothesis discharged by evaluation. -/
theorem c8_witness :
    add_file oneFile_fs
        ⟨[], [], [], [["a"]], ⟨1, 0, 5, 50, [(["a"], (5, 50))]⟩⟩ ["a"] =
      .ok ⟨[], [], [], [["a"]], ⟨1, 0, 5, 50, [(["a"], (5, 50))]⟩⟩ :=
  c8_add_file_idempotent oneFile_fs walkInit ["a"]
    ⟨[], [], [], [["a"]], ⟨1, 0, 5, 50, [(["a"], (5, 50))]⟩⟩ rfl

/-- C9: `bytes_du` does not equal the sum of the individual on-disk
allocated sizes of the selected files: adding two files whose allocated
sizes are 1 byte each, on a disk with 100 bytes in use, leaves
`bytes_to_copy_du` at 200 (the whole-disk `shutil.disk_usage(...).used`
counted once per file) while the spec-side sum of the file allocated
sizes is 2. -/
theorem c9_bytes_du_is_not_allocated_size_sum :
    ((statsAddFile twoSmall_fs statsInit ["a"]).bind
          (fun s => statsAddFile twoSmall_fs s ["b"])).map
        (fun s => s.bytes_to_copy_du) = .ok 200 ∧
      duSum twoSmall_fs [["a"], ["b"]] = 2 ∧ (200 : Int) ≠ 2 :=
  ⟨rfl, rfl, by decide⟩

/-- C10: constructing a RootPattern fails for every path and every
filesystem (the directory probe is an arbitrary oracle): the constructor
asserts that the path is a directory, is absolute, and has zero parts,
and an absolute path always carries its anchor as a first part. -/
theorem c10_rootPattern_never_constructible (is_dir_probe : PyPath → Bool)
    (p : PyPath) (children : List Pattern) :
    rootPatternInit is_dir_probe p children = .error .assertionError := by
  cases hp : is_dir_probe p with
  | false => simp [rootPatternInit, hp]
  | true =>
    rcases p with ⟨hr, comps⟩
    cases hr with
    | false => simp [rootPatternInit, hp, PyPath.is_absolute]
    | true => simp [rootPatternInit, hp, PyPath.is_absolute, PyPath.parts]

/-- C10 witness: the constructor fails even on the root path `/` of a
filesystem where it is a directory. -/
theorem c10_witness :
    rootPatternInit (fun _ => true) ⟨true, []⟩ [] = .error .assertionError :=
  c10_rootPattern_never_constructible (fun _ => true) ⟨true, []⟩ []

end BackupFiles
